import Mathlib

/-!
# EvoSim — shallow embedding and verification

A shallow embedding of the EvoSim predator–prey simulator
(`config.js`, `utils.js`, `environment.js`, `organism.js`, `predator.js`,
`simulation.js`) together with theorems settling the frozen claims about it.

Modelling conventions:
* JavaScript numbers are modelled as rationals (`ℚ`); the claims under study
  are order- and clamping-theoretic and do not depend on float rounding.
* Calls to `Math.random` / `getRandom` / `getRandomInt` are modelled by
  explicit oracle inputs: each definition that consumes randomness takes the
  drawn values (or the boolean outcome of a `Math.random() < p` comparison)
  as an extra argument, and theorems quantify over them.
* The lone floating-point normalisation in `Organism._move` (the
  `Math.round(escapeVector/‖·‖)` flee direction, which the source immediately
  clamps to `[-1, 1]`) is likewise supplied by the oracle.
* Mutable JS objects addressed through shared references (the prey referenced
  by the spatial lookup and by the eligible-parent list during a tick) are
  modelled as a store `ℤ → Organism` keyed by organism id; object identity in
  the heap corresponds to the store key.
-/

namespace EvoSim

/-! ## Configuration constants (config.js) -/

def MAX_LIFESPAN : ℕ := 400
def REPRODUCTION_AGE : ℕ := 70
def REPRODUCTION_ENERGY_THRESHOLD : ℚ := 90
def ENERGY_COST_OF_REPRODUCTION : ℚ := 45
def INITIAL_ENERGY : ℚ := 60
def MAX_ENERGY : ℚ := 120
def BASE_ENERGY_COST_PER_TICK : ℚ := 6/10
def MOVEMENT_ENERGY_COST : ℚ := 15/100
def FOOD_ENERGY_VALUE : ℚ := 30
def FOOD_CONSUMPTION_RATE : ℚ := 6/10
def INITIAL_GENE_VARIATION : ℚ := 2/10
def MUTATION_AMOUNT : ℚ := 5/100
def TEMP_BASE : ℚ := 25
def TEMP_AMPLITUDE : ℚ := 15
def CELL_MAX_RESOURCES : ℚ := 15
def NODE_REPLENISH_RATE : ℚ := 25/100
def NODE_INITIAL_RESOURCES : ℚ := 7
def NON_NODE_INITIAL_RESOURCES : ℚ := 1
def MATING_SEARCH_RADIUS : ℤ := 2

/-! ## utils.js -/

/-- `clamp(value, min, max)` from utils.js: `Math.max(min, Math.min(value, max))`. -/
def clamp (value lo hi : ℚ) : ℚ := max lo (min value hi)

/-- Integer variant of `clamp`, used where the source clamps the rounded flee
direction to `[-1, 1]`. -/
def clampZ (value lo hi : ℤ) : ℤ := max lo (min value hi)

/-! ## environment.js -/

/-- One grid cell (the fields of the cell object built in the `Environment`
constructor that the engine reads; `biomeName`/`color` are display-only). -/
structure Cell where
  resourceAmount : ℚ
  isNode : Bool
  tempOffset : ℚ
  moveCostMultiplier : ℚ
deriving DecidableEq

/-- The environment: grid dimensions, the global temperature, and the cell
lattice. `grid y x` mirrors the JS indexing `this.grid[y][x]`; coordinates are
integers because callers may pass arbitrary ints (the bounds check in
`getCell` decides validity). -/
structure Environment where
  width : ℤ
  height : ℤ
  temperature : ℚ
  grid : ℤ → ℤ → Cell

/-- `Environment.getCell(x, y)`: `null` out of bounds, the cell otherwise. -/
def Environment.getCell (env : Environment) (x y : ℤ) : Option Cell :=
  if x < 0 ∨ env.width ≤ x ∨ y < 0 ∨ env.height ≤ y then none
  else some (env.grid y x)

/-- `Environment.consumeResourceAt(x, y, amount)`: returns the consumed amount
and the updated environment (the JS method mutates the cell in place). -/
def Environment.consumeResourceAt (env : Environment) (x y : ℤ) (amount : ℚ) :
    ℚ × Environment :=
  match env.getCell x y with
  | none => (0, env)
  | some cell =>
    let consumed := min amount cell.resourceAmount
    (consumed,
      { env with
        grid := fun y' x' =>
          if y' = y ∧ x' = x then
            { cell with resourceAmount := cell.resourceAmount - consumed }
          else env.grid y' x' })

/-! ## Genome model (organism.js) -/

/-- The gene names carried by every prey organism (the key set of the
`initialPhenotypes` object built in `Simulation._createInitialPopulation`). -/
inductive GeneName where
  | metabolism_efficiency
  | temperature_tolerance
  | feeding_efficiency
  | size
  | speed
  | camouflage
  | reproductive_rate
  | resistance
deriving DecidableEq

/-- One allele: either a float value or one of the two temperature symbols
`'H'` / `'L'`. -/
inductive Allele where
  | num (v : ℚ)
  | H
  | L
deriving DecidableEq

/-- Numeric reading of an allele. Symbolic alleles have no numeric value in
the source (arithmetic on them would yield `NaN` and is unreachable for
well-formed genomes); they read as `0` here. -/
def Allele.toNum : Allele → ℚ
  | .num v => v
  | _ => 0

/-- A genome: one allele pair per gene. JS stores this as an object with
exactly these keys; every prey carries all of them. -/
structure Genome where
  metabolism_efficiency : Allele × Allele
  temperature_tolerance : Allele × Allele
  feeding_efficiency : Allele × Allele
  size : Allele × Allele
  speed : Allele × Allele
  camouflage : Allele × Allele
  reproductive_rate : Allele × Allele
  resistance : Allele × Allele
deriving DecidableEq

def Genome.get (g : Genome) : GeneName → Allele × Allele
  | .metabolism_efficiency => g.metabolism_efficiency
  | .temperature_tolerance => g.temperature_tolerance
  | .feeding_efficiency => g.feeding_efficiency
  | .size => g.size
  | .speed => g.speed
  | .camouflage => g.camouflage
  | .reproductive_rate => g.reproductive_rate
  | .resistance => g.resistance

/-- Build a genome from a per-gene function (the embedding of a JS
`for (const geneName in …)` loop over the fixed key set). -/
def Genome.ofFun (f : GeneName → Allele × Allele) : Genome :=
  { metabolism_efficiency := f .metabolism_efficiency
    temperature_tolerance := f .temperature_tolerance
    feeding_efficiency := f .feeding_efficiency
    size := f .size
    speed := f .speed
    camouflage := f .camouflage
    reproductive_rate := f .reproductive_rate
    resistance := f .resistance }

/-! ## Organism (organism.js) -/

structure Organism where
  id : ℤ
  age : ℕ
  energy : ℚ
  alive : Bool
  loc : ℤ × ℤ
  genes : Genome
  hasReproducedThisTick : Bool
deriving DecidableEq

/-- Random draws consumed by the `Organism` constructor for one gene:
two coin flips (`Math.random() < 0.5`, used for the `'H'`/`'L'` alleles of
`temperature_tolerance`) and two deviations (the results of
`getRandom(-variation, variation)` for float genes). -/
structure InitDraw where
  c1 : Bool
  c2 : Bool
  d1 : ℚ
  d2 : ℚ

/-- Allele-pair initialisation for one gene, from the `Organism` constructor:
`temperature_tolerance` gets random symbols; other genes get
`baseValue + getRandom(-variation, variation)` per allele, clamped to
`[0.1, 2.0]` for `metabolism_efficiency` and `feeding_efficiency`. -/
def initAllelePair (g : GeneName) (baseValue : ℚ) (r : InitDraw) : Allele × Allele :=
  if g = .temperature_tolerance then
    ((if r.c1 then .H else .L), (if r.c2 then .H else .L))
  else
    let a1 := baseValue + r.d1
    let a2 := baseValue + r.d2
    if g = .metabolism_efficiency ∨ g = .feeding_efficiency then
      (.num (clamp a1 (1/10) 2), .num (clamp a2 (1/10) 2))
    else
      (.num a1, .num a2)

/-- The `Organism` constructor: `new Organism(id, initialGenes, location)`.
`initialGenes` maps each gene name to its initial average phenotype value;
`r` supplies the constructor's random draws, one `InitDraw` per gene. -/
def Organism.init (id : ℤ) (initialGenes : GeneName → ℚ) (loc : ℤ × ℤ)
    (r : GeneName → InitDraw) : Organism :=
  { id := id
    age := 0
    energy := INITIAL_ENERGY
    alive := true
    loc := loc
    genes := Genome.ofFun fun g => initAllelePair g (initialGenes g) (r g)
    hasReproducedThisTick := false }

/-- Expressed phenotypes: a category for `temperature_tolerance`, a number
for the additive float genes. -/
inductive Phen where
  | num (v : ℚ)
  | High
  | Medium
  | Low
deriving DecidableEq

/-- `Organism.getPhenotype(geneName)`: dominant/recessive resolution for
`temperature_tolerance` (`HH → High`, `LL → Low`, otherwise `Medium`),
allele average for every other gene. (The source's missing-gene default is
unreachable here: every `Genome` is total.) -/
def Organism.getPhenotype (o : Organism) (g : GeneName) : Phen :=
  let alleles := o.genes.get g
  if g = .temperature_tolerance then
    match alleles with
    | (.H, .H) => .High
    | (.L, .L) => .Low
    | _ => .Medium
  else
    .num ((alleles.1.toNum + alleles.2.toNum) / 2)

/-- `Organism._checkDeath`: dies when `energy <= 0` or `age > MAX_LIFESPAN`. -/
def Organism.checkDeath (o : Organism) : Organism :=
  if o.energy ≤ 0 ∨ MAX_LIFESPAN < o.age then { o with alive := false } else o

/-! ### Mutation and reproduction (organism.js) -/

/-- Random draws consumed by `_mutateGenotype` for one gene: `m1`/`m2` are the
outcomes of the `Math.random() < rate` rolls for the two alleles (the flip
roll for `temperature_tolerance`, the mutation roll otherwise) and `d1`/`d2`
are the `getRandom(-MUTATION_AMOUNT, MUTATION_AMOUNT)` perturbations. -/
structure MutDraw where
  m1 : Bool
  m2 : Bool
  d1 : ℚ
  d2 : ℚ

/-- The symbol flip `allele === 'H' ? 'L' : 'H'`. -/
def Allele.flip (a : Allele) : Allele := if a = .H then .L else .H

/-- Per-gene body of the `_mutateGenotype` loop: symbol flips for
`temperature_tolerance`; float perturbation for other genes followed by an
unconditional re-clamp to `[0.1, 2.0]` for `metabolism_efficiency` and
`feeding_efficiency`. -/
def mutatePair (g : GeneName) (pair : Allele × Allele) (r : MutDraw) : Allele × Allele :=
  if g = .temperature_tolerance then
    ((if r.m1 then pair.1.flip else pair.1), (if r.m2 then pair.2.flip else pair.2))
  else
    let v1 := if r.m1 then pair.1.toNum + r.d1 else pair.1.toNum
    let v2 := if r.m2 then pair.2.toNum + r.d2 else pair.2.toNum
    if g = .metabolism_efficiency ∨ g = .feeding_efficiency then
      (.num (clamp v1 (1/10) 2), .num (clamp v2 (1/10) 2))
    else
      (.num v1, .num v2)

/-- `Organism._mutateGenotype(genotype)`. -/
def mutateGenotype (genotype : Genome) (r : GeneName → MutDraw) : Genome :=
  Genome.ofFun fun g => mutatePair g (genotype.get g) (r g)

/-- Randomness consumed by `Organism.reproduce`: for each gene, which allele
to take from each parent (`getRandomInt(0, 1)`; `false` picks index 0), the
mutation draws, and the draws of the nested `Organism` constructor call
(whose generated alleles are discarded when `offspring.genes` is
overwritten). -/
structure ReproRand where
  pickA : GeneName → Bool
  pickB : GeneName → Bool
  mutDraws : GeneName → MutDraw
  initDraws : GeneName → InitDraw

/-- Allele selection `genes[geneName][getRandomInt(0, 1)]`. -/
def pickAllele (pair : Allele × Allele) (b : Bool) : Allele :=
  if b then pair.2 else pair.1

/-- The inheritance loop of `Organism.reproduce`: one random allele from each
parent per gene. (The `partner.genes.hasOwnProperty` fallback is always taken
in the positive: every `Genome` in this embedding carries every gene, as does
every prey built by `Simulation._createInitialPopulation`.) -/
def inheritGenotype (gA gB : Genome) (pickA pickB : GeneName → Bool) : Genome :=
  Genome.ofFun fun g => (pickAllele (gA.get g) (pickA g), pickAllele (gB.get g) (pickB g))

/-- The placeholder initial-phenotype value `Organism.reproduce` computes per
gene before calling the constructor (whose generated alleles are then
discarded). -/
def placeholderGeneValue (g : GeneName) (pair : Allele × Allele) : ℚ :=
  if g = .temperature_tolerance then
    match pair with
    | (.H, .H) => TEMP_BASE + 5
    | (.L, .L) => TEMP_BASE - 5
    | _ => TEMP_BASE
  else
    (pair.1.toNum + pair.2.toNum) / 2

/-- `Organism.reproduce(partner)`: inherit one allele per parent per gene,
mutate the result, build the offspring at parent `this`'s location with
placeholder id `-1`, then assign the computed genotype. -/
def Organism.reproduce (pA pB : Organism) (r : ReproRand) : Organism :=
  let offspringGenotype := inheritGenotype pA.genes pB.genes r.pickA r.pickB
  let finalOffspringGenotype := mutateGenotype offspringGenotype r.mutDraws
  let placeholderInitialGenes := fun g => placeholderGeneValue g (finalOffspringGenotype.get g)
  let offspring := Organism.init (-1) placeholderInitialGenes pA.loc r.initDraws
  { offspring with genes := finalOffspringGenotype }

/-! ### Per-tick prey behaviour (organism.js) -/

/-- Squared distance between two grid locations, as computed by the flee and
detection logic. -/
def distSq (a b : ℤ × ℤ) : ℤ := (a.1 - b.1) ^ 2 + (a.2 - b.2) ^ 2

/-- Predator record (predator.js). Predator genes are plain numbers, not
allele pairs. `targetPrey` stores the id of the currently targeted prey. -/
structure Predator where
  id : ℤ
  age : ℕ
  energy : ℚ
  alive : Bool
  loc : ℤ × ℤ
  metabolism_efficiency : ℚ
  temperature_tolerance : ℚ
  speed : ℚ
  detection_range : ℚ
  hunting_efficiency : ℚ
  hasReproducedThisTick : Bool
  targetPrey : Option ℤ

/-- Randomness consumed by one movement call: the two `getRandomInt(-1, 1)`
draws for the random step, and the flee direction — the float computation
`Math.round(escapeVector / magnitude)` per axis, supplied by the oracle and
then clamped to `[-1, 1]` exactly as in the source. -/
structure MoveRand where
  randDx : ℤ
  randDy : ℤ
  fleeRx : ℤ
  fleeRy : ℤ

/-- The direction-selection logic of `Organism._move`: when some living
predator is within squared distance 16 (`preyDetectionRange = 4`), take the
clamped flee direction (falling back to the random step when it is the null
vector); otherwise take the random step. -/
def chooseMoveDelta (o : Organism) (predators : List Predator) (r : MoveRand) : ℤ × ℤ :=
  let fleeing := predators.any fun p => p.alive && distSq o.loc p.loc ≤ 16
  if fleeing then
    let d := (clampZ r.fleeRx (-1) 1, clampZ r.fleeRy (-1) 1)
    if d = (0, 0) then (r.randDx, r.randDy) else d
  else
    (r.randDx, r.randDy)

/-- The movement-cost computation shared by `Organism._move` and
`Predator._move`: the base cost, times the target cell's biome multiplier
when the target cell exists. -/
def moveCostAt (env : Environment) (x y : ℤ) (base : ℚ) : ℚ :=
  match env.getCell x y with
  | some targetCell => base * targetCell.moveCostMultiplier
  | none => base

/-- `Organism._move(environment, predators)`: flee from predators within the
fixed detection radius 4, otherwise take a uniform random single-cell step;
wrap toroidally; deduct the biome-scaled movement cost for any non-null
step. (In the source the grid dimensions are the globals
`gridWidth`/`gridHeight`, which equal the environment's dimensions after any
reset; the embedding reads them from the environment.) -/
def Organism.move (o : Organism) (env : Environment) (predators : List Predator)
    (r : MoveRand) : Organism :=
  let dxdy := chooseMoveDelta o predators r
  if dxdy = (0, 0) then o
  else
    let nextX := (o.loc.1 + dxdy.1 + env.width) % env.width
    let nextY := (o.loc.2 + dxdy.2 + env.height) % env.height
    { o with
      energy := o.energy - moveCostAt env nextX nextY MOVEMENT_ENERGY_COST
      loc := (nextX, nextY) }

/-- Numeric reading of a phenotype, for the places where the source does
arithmetic with `getPhenotype(...)` of a float gene (a categorical value
there would yield `NaN`; it is unreachable for well-formed genomes). -/
def Phen.toNum : Phen → ℚ
  | .num v => v
  | _ => 0

/-- The temperature-penalty multiplier from `Organism._metabolize`, given the
`temperature_tolerance` phenotype and the effective temperature. The zone
thresholds are `TEMP_BASE ∓ TEMP_AMPLITUDE * 0.4` (19 and 31). The source's
default multiplier `1.0` applies when the phenotype is none of the three
categories. -/
def tempPenaltyMultiplier (tempPhenotype : Phen) (effectiveTemperature : ℚ) : ℚ :=
  let lowTempThreshold := TEMP_BASE - TEMP_AMPLITUDE * (4/10)
  let highTempThreshold := TEMP_BASE + TEMP_AMPLITUDE * (4/10)
  match tempPhenotype with
  | .High =>
    if effectiveTemperature < lowTempThreshold then 25/10
    else if effectiveTemperature < highTempThreshold then 12/10
    else 8/10
  | .Low =>
    if highTempThreshold < effectiveTemperature then 25/10
    else if lowTempThreshold < effectiveTemperature then 12/10
    else 8/10
  | .Medium =>
    if effectiveTemperature < lowTempThreshold ∨ highTempThreshold < effectiveTemperature
    then 15/10 else 1
  | .num _ => 1

/-- `Organism._metabolize(environment)`: cost = base cost divided by the
metabolism-efficiency phenotype, times the temperature-penalty multiplier;
no-op when the current cell is out of bounds. -/
def Organism.metabolize (o : Organism) (env : Environment) : Organism :=
  match env.getCell o.loc.1 o.loc.2 with
  | none => o
  | some cell =>
    let cost := BASE_ENERGY_COST_PER_TICK / (o.getPhenotype .metabolism_efficiency).toNum
    let effectiveTemperature := env.temperature + cell.tempOffset
    let cost := cost * tempPenaltyMultiplier (o.getPhenotype .temperature_tolerance)
      effectiveTemperature
    { o with energy := o.energy - cost }

/-- `Organism._feed(environment)`: consume up to `FOOD_CONSUMPTION_RATE` from
the current cell via `consumeResourceAt`, gain energy scaled by the
feeding-efficiency phenotype, clamp to `[0, MAX_ENERGY]`. Returns the updated
organism and environment. -/
def Organism.feed (o : Organism) (env : Environment) : Organism × Environment :=
  match env.getCell o.loc.1 o.loc.2 with
  | none => (o, env)
  | some cell =>
    let canConsume := min cell.resourceAmount FOOD_CONSUMPTION_RATE
    if 0 < canConsume then
      let r := env.consumeResourceAt o.loc.1 o.loc.2 canConsume
      let energyGained := r.1 * FOOD_ENERGY_VALUE * (o.getPhenotype .feeding_efficiency).toNum
      ({ o with energy := clamp (o.energy + energyGained) 0 MAX_ENERGY }, r.2)
    else
      (o, env)

/-- `Organism.update(environment, predators)`: skip if dead; otherwise age,
move, metabolize, feed, then check death. -/
def Organism.update (o : Organism) (env : Environment) (predators : List Predator)
    (r : MoveRand) : Organism × Environment :=
  if ¬o.alive then (o, env)
  else
    let o1 := { o with age := o.age + 1 }
    let o2 := o1.move env predators r
    let o3 := o2.metabolize env
    let fe := o3.feed env
    (fe.1.checkDeath, fe.2)

/-! ## Predator behaviour (predator.js) -/

/-- `TEMP_PENALTY_FACTOR` from config.js (used by `Predator._metabolize`). -/
def TEMP_PENALTY_FACTOR : ℚ := 3/100

/-- `Predator._metabolize(environment)`: higher base cost (`× 1.2`), penalty
scaling with the absolute difference between effective temperature and the
predator's numeric temperature tolerance. -/
def Predator.metabolize (p : Predator) (env : Environment) : Predator :=
  match env.getCell p.loc.1 p.loc.2 with
  | none => p
  | some cell =>
    let cost := BASE_ENERGY_COST_PER_TICK * (12/10) / p.metabolism_efficiency
    let effectiveTemperature := env.temperature + cell.tempOffset
    let tempDifference := |effectiveTemperature - p.temperature_tolerance|
    let cost := cost * (1 + tempDifference * TEMP_PENALTY_FACTOR)
    { p with energy := p.energy - cost }

/-- `Predator._findNearbyPrey(environment, allOrganisms)`: living prey within
the squared detection range. (The `instanceof Organism` test holds for every
element: the simulation passes the prey list.) -/
def Predator.findNearbyPrey (p : Predator) (allOrganisms : List Organism) : List Organism :=
  allOrganisms.filter fun org =>
    org.alive && decide ((distSq p.loc org.loc : ℚ) ≤ p.detection_range ^ 2)

/-- The closest-prey scan in `Predator._move`: first strict minimum of the
squared distance wins. -/
def closestPrey (loc : ℤ × ℤ) (nearby : List Organism) : Option Organism :=
  (nearby.foldl
    (fun (acc : Option Organism × Option ℤ) prey =>
      match acc.2 with
      | none => (some prey, some (distSq loc prey.loc))
      | some m =>
        if distSq loc prey.loc < m then (some prey, some (distSq loc prey.loc)) else acc)
    (none, none)).1

/-- The direction-selection logic of `Predator._move`: sign-step toward the
chosen target, falling back to the random step when there is no target (the
null vector). -/
def predMoveDelta (ploc : ℤ × ℤ) (targetChoice : Option Organism) (r : MoveRand) :
    ℤ × ℤ :=
  let dxdy : ℤ × ℤ :=
    match targetChoice with
    | some closest => ((closest.loc.1 - ploc.1).sign, (closest.loc.2 - ploc.2).sign)
    | none => (0, 0)
  if dxdy = (0, 0) then (r.randDx, r.randDy) else dxdy

/-- `Predator._move(environment, allOrganisms)`: step toward the closest
detected prey by coordinate sign, otherwise move randomly; wrap toroidally;
deduct the slightly raised movement cost. Returns unchanged if the current
cell is out of bounds (the early `if (!cell) return`). -/
def Predator.move (p : Predator) (env : Environment) (allOrganisms : List Organism)
    (r : MoveRand) : Predator :=
  match env.getCell p.loc.1 p.loc.2 with
  | none => p
  | some _ =>
    let targetChoice : Option Organism := closestPrey p.loc (p.findNearbyPrey allOrganisms)
    let p := { p with targetPrey := targetChoice.map (·.id) }
    let dxdy := predMoveDelta p.loc targetChoice r
    if dxdy = (0, 0) then p
    else
      let nextX := (p.loc.1 + dxdy.1 + env.width) % env.width
      let nextY := (p.loc.2 + dxdy.2 + env.height) % env.height
      { p with
        energy := p.energy - moveCostAt env nextX nextY (MOVEMENT_ENERGY_COST * (11/10))
        loc := (nextX, nextY) }

/-- `Predator._checkDeath`: dies when `energy <= 0` or
`age > MAX_LIFESPAN * 0.8`. -/
def Predator.checkDeath (p : Predator) : Predator :=
  if p.energy ≤ 0 ∨ MAX_LIFESPAN * 8 / 10 < p.age then { p with alive := false } else p

/-- The loop of `Predator.hunt`: for each co-located prey (given by id into
the prey store, in list order), if it is alive and distinct from the hunter,
roll `Math.random() < hunting_efficiency` (the oracle `roll` is indexed by
the number of rolls made so far); on the first success gain 80% of the prey's
energy (clamped to the predator's higher maximum), mark the prey dead, and
stop. -/
def Predator.huntLoop (pred : Predator) (store : ℤ → Organism) (roll : ℕ → Bool) :
    List ℤ → ℕ → Predator × Option ℤ × (ℤ → Organism)
  | [], _ => (pred, none, store)
  | cid :: rest, n =>
    let potentialPrey := store cid
    if potentialPrey.alive = true ∧ potentialPrey.id ≠ pred.id then
      if roll n then
        let energyGain := potentialPrey.energy * (8/10)
        ({ pred with
            energy := clamp (pred.energy + energyGain) 0 (MAX_ENERGY * (12/10))
            targetPrey := none },
          some cid,
          fun j => if j = cid then { potentialPrey with alive := false } else store j)
      else Predator.huntLoop pred store roll rest (n + 1)
    else Predator.huntLoop pred store roll rest n

/-- `Predator.hunt(organismsInCell)`: no-op for a dead predator. -/
def Predator.hunt (pred : Predator) (organismsInCell : List ℤ) (store : ℤ → Organism)
    (roll : ℕ → Bool) : Predator × Option ℤ × (ℤ → Organism) :=
  if ¬pred.alive then (pred, none, store)
  else Predator.huntLoop pred store roll organismsInCell 0

/-- Randomness consumed by one `Predator.update`: the movement draws and the
hunting rolls. -/
structure PredRand where
  moveRand : MoveRand
  rolls : ℕ → Bool

/-- `Predator.update(environment, allOrganisms, organismsInCell)`: skip if
dead; otherwise age, metabolize, move (seeking prey), attempt one hunt, then
check death. Returns the updated predator, the id of the hunted prey (if
any), and the updated prey store. -/
def Predator.update (p : Predator) (env : Environment) (allOrganisms : List Organism)
    (organismsInCell : List ℤ) (store : ℤ → Organism) (r : PredRand) :
    Predator × Option ℤ × (ℤ → Organism) :=
  if ¬p.alive then (p, none, store)
  else
    let p1 := { p with age := p.age + 1 }
    let p2 := p1.metabolize env
    let p3 := p2.move env allOrganisms r.moveRand
    let res := p3.hunt organismsInCell store r.rolls
    (res.1.checkDeath, res.2.1, res.2.2)

/-! ## Simulation phases (simulation.js) -/

/-- Step 2 of `Simulation.tick`: `allCreatures.forEach(c =>
c.hasReproducedThisTick = false)`. -/
def resetTickFlag (o : Organism) : Organism := { o with hasReproducedThisTick := false }

/-- `Simulation._buildSpatialLookup(organismsList)`: coordinate → ids of the
living organisms there, in list order. -/
def buildSpatialLookup (organismsList : List Organism) : ℤ × ℤ → List ℤ := fun key =>
  ((organismsList.filter fun o => o.alive && decide (o.loc = key)).map (·.id))

/-- The `effectiveReproductionAge` computed in step 4 of `Simulation.tick`:
`REPRODUCTION_AGE` shifted by `∓2` for a `High`/`Low` reproductive-rate
phenotype (never below 1). -/
def effectiveReproductionAge (org : Organism) : ℕ :=
  match org.getPhenotype .reproductive_rate with
  | .High => max 1 (REPRODUCTION_AGE - 2)
  | .Low => REPRODUCTION_AGE + 2
  | _ => REPRODUCTION_AGE

/-- The reproduction-eligibility test of step 4 of `Simulation.tick`. -/
def eligibleForReproduction (org : Organism) : Bool :=
  decide (effectiveReproductionAge org ≤ org.age) &&
  decide (REPRODUCTION_ENERGY_THRESHOLD ≤ org.energy)

/-- Result of the prey phase (step 4 of `Simulation.tick`). -/
structure PreyRes where
  survivors : List Organism
  env : Environment
  parents : List ℤ
  removedHunted : List Organism

/-- The body of the prey loop, processing organisms in iteration order
(the source iterates the array from the last index down to index 0 and
splices removals in place; `preyPhase` below reverses accordingly). A prey
hunted this tick is removed without being updated; otherwise it is updated,
removed if dead, and queued for reproduction if eligible. -/
def preyPhaseAux (hunted : List ℤ) (predators : List Predator) (r : ℤ → MoveRand) :
    List Organism → Environment → PreyRes
  | [], env => ⟨[], env, [], []⟩
  | org :: rest, env =>
    if org.id ∈ hunted then
      let res := preyPhaseAux hunted predators r rest env
      { res with removedHunted := org :: res.removedHunted }
    else
      let upd := org.update env predators (r org.id)
      let res := preyPhaseAux hunted predators r rest upd.2
      if upd.1.alive = false then res
      else
        { res with
          survivors := upd.1 :: res.survivors
          parents :=
            if eligibleForReproduction upd.1 then upd.1.id :: res.parents else res.parents }

/-- Step 4 of `Simulation.tick` over the prey array. Iteration runs from the
last index to the first, so the auxiliary loop processes the reversed list;
survivors and removals are reversed back into array order. -/
def preyPhase (organisms : List Organism) (hunted : List ℤ) (env : Environment)
    (predators : List Predator) (r : ℤ → MoveRand) : PreyRes :=
  let res := preyPhaseAux hunted predators r organisms.reverse env
  { res with
    survivors := res.survivors.reverse
    removedHunted := res.removedHunted.reverse }

/-! ### Mate search and the reproduction phase (simulation.js) -/

/-- The partner-eligibility test inside `Simulation._findPartner`: an
`Organism` (the lookup indexes prey only), a different id, alive, not yet
reproduced this tick, old enough, and energetic enough. -/
def eligiblePartner (store : ℤ → Organism) (parentA : Organism) (cid : ℤ) : Bool :=
  let p := store cid
  decide (p.id ≠ parentA.id) && p.alive && !p.hasReproducedThisTick &&
  decide (REPRODUCTION_AGE ≤ p.age) && decide (REPRODUCTION_ENERGY_THRESHOLD ≤ p.energy)

/-- The `(dx, dy)` visit order of the nested loops in
`Simulation._findPartner`, unrolled for `MATING_SEARCH_RADIUS = 2`: `dx` from
`-radius` to `radius` outer, `dy` inner, skipping `(0, 0)`. -/
def searchOffsets : List (ℤ × ℤ) :=
  [(-2, -2), (-2, -1), (-2, 0), (-2, 1), (-2, 2),
   (-1, -2), (-1, -1), (-1, 0), (-1, 1), (-1, 2),
   (0, -2), (0, -1), (0, 1), (0, 2),
   (1, -2), (1, -1), (1, 0), (1, 1), (1, 2),
   (2, -2), (2, -1), (2, 0), (2, 1), (2, 2)]

/-- `Simulation._findPartner(parentA, spatialLookup)`: scan the surrounding
cells in `searchOffsets` order (toroidally wrapped with the configured grid
dimensions), returning the first eligible candidate; only if none is found
there, scan parentA's own cell. -/
def findPartner (store : ℤ → Organism) (lookup : ℤ × ℤ → List ℤ) (gridW gridH : ℤ)
    (parentA : Organism) : Option ℤ :=
  match searchOffsets.findSome? (fun d =>
      let checkX := (parentA.loc.1 + d.1 + gridW) % gridW
      let checkY := (parentA.loc.2 + d.2 + gridH) % gridH
      (lookup (checkX, checkY)).find? (eligiblePartner store parentA)) with
  | some partner => some partner
  | none => (lookup (parentA.loc.1, parentA.loc.2)).find? (eligiblePartner store parentA)

/-- The phenotype-adjusted reproduction energy cost from step 5 of
`Simulation.tick` (`∓10%` for a `High`/`Low` reproductive-rate phenotype). -/
def adjustedReproCost (o : Organism) : ℚ :=
  match o.getPhenotype .reproductive_rate with
  | .High => ENERGY_COST_OF_REPRODUCTION * (1 - 1/10)
  | .Low => ENERGY_COST_OF_REPRODUCTION * (1 + 1/10)
  | _ => ENERGY_COST_OF_REPRODUCTION

/-- State of the reproduction phase (step 5 of `Simulation.tick`): the prey
store (live objects addressed by id, shared with the spatial lookup and the
parent list), the sizes of `this.organisms` and `this.predators` (constant
during the phase), the newborn queue, and the id counter. -/
structure ReproState where
  store : ℤ → Organism
  orgCount : ℕ
  predCount : ℕ
  newborns : List Organism
  nextId : ℤ

/-- One recorded reproduction: the ids of the two parents. -/
structure ReproEvent where
  pa : ℤ
  pb : ℤ
deriving DecidableEq

/-- The effect of one successful reproduction on the phase state (the body
of the guarded branch in step 5 of `Simulation.tick`): create the offspring
with a fresh id, deduct each parent's phenotype-adjusted cost from the live
object it references (`parentA.energy -= costParentA`,
`partner.energy -= costParentB`), set both reproduction flags, and queue the
newborn. -/
def reproEventState (st : ReproState) (pid pbid : ℤ) (r : ℤ → ReproRand) : ReproState :=
  let parentA := st.store pid
  let partner := st.store pbid
  let offspring := { parentA.reproduce partner (r pid) with id := st.nextId }
  let costParentA := adjustedReproCost parentA
  let costParentB := adjustedReproCost partner
  let store1 := fun j =>
    if j = pid then
      { parentA with
        energy := parentA.energy - costParentA, hasReproducedThisTick := true }
    else st.store j
  let partner1 := store1 pbid
  let store2 := fun j =>
    if j = pbid then
      { partner1 with
        energy := partner1.energy - costParentB, hasReproducedThisTick := true }
    else store1 j
  { st with
    store := store2
    newborns := st.newborns ++ [offspring]
    nextId := st.nextId + 1 }

/-- The reproduction loop of step 5 of `Simulation.tick` over the shuffled
eligible-parent ids: re-check parentA, find a partner via the (stale) spatial
lookup, re-check the partner, and — while the combined population including
newborns is below the cap — apply `reproEventState`; reaching the cap
`break`s out of the loop. Returns the final state and the list of
reproduction events. -/
def reproLoop (maxPop : ℕ) (gridW gridH : ℤ) (lookup : ℤ × ℤ → List ℤ)
    (r : ℤ → ReproRand) : List ℤ → ReproState → ReproState × List ReproEvent
  | [], st => (st, [])
  | pid :: rest, st =>
    let parentA := st.store pid
    if parentA.alive = false ∨ parentA.hasReproducedThisTick = true then
      reproLoop maxPop gridW gridH lookup r rest st
    else
      match findPartner st.store lookup gridW gridH parentA with
      | none => reproLoop maxPop gridW gridH lookup r rest st
      | some pbid =>
        let partner := st.store pbid
        if partner.alive = true ∧ partner.hasReproducedThisTick = false then
          if st.orgCount + st.predCount + st.newborns.length < maxPop then
            let res := reproLoop maxPop gridW gridH lookup r rest
              (reproEventState st pid pbid r)
            (res.1, ⟨pid, pbid⟩ :: res.2)
          else
            (st, [])
        else
          reproLoop maxPop gridW gridH lookup r rest st

/-- The ids taking part in a list of reproduction events. -/
def participants (evs : List ReproEvent) : List ℤ :=
  evs.flatMap fun e => [e.pa, e.pb]

/-! ## Concrete states used by witnesses and counterexamples -/

/-- A plains-like cell holding 7 resource units. -/
def cellEx : Cell :=
  { resourceAmount := 7, isNode := true, tempOffset := 0, moveCostMultiplier := 1 }

/-- A 2×2 environment of `cellEx` cells at base temperature. -/
def envEx : Environment :=
  { width := 2, height := 2, temperature := 25, grid := fun _ _ => cellEx }

/-- A well-formed prey genome (all additive alleles in bounds, heterozygous
temperature tolerance, a numeric resistance pair as built by
`Simulation._createInitialPopulation`). -/
def genomeEx : Genome :=
  { metabolism_efficiency := (.num 1, .num 1)
    temperature_tolerance := (.H, .L)
    feeding_efficiency := (.num 1, .num 1)
    size := (.num 0, .num 0)
    speed := (.num 0, .num 0)
    camouflage := (.num 0, .num 0)
    reproductive_rate := (.num 0, .num 0)
    resistance := (.num (1/2), .num (1/2)) }

/-- A live prey organism carrying `genomeEx`. -/
def orgEx : Organism :=
  { id := 0, age := 10, energy := 60, alive := true, loc := (0, 0), genes := genomeEx
    hasReproducedThisTick := false }

/-! ## Auxiliary predicates and concrete states for the theorems -/

/-- An allele that is a float within the declared bounds `[0.1, 2.0]`. -/
def alleleInBounds (a : Allele) : Prop := ∃ v, a = Allele.num v ∧ 1/10 ≤ v ∧ v ≤ 2

def pairInBounds (p : Allele × Allele) : Prop := alleleInBounds p.1 ∧ alleleInBounds p.2

/-- The expressed phenotype of gene `g` is a float within `[0.1, 2.0]`. -/
def phenotypeInBounds (o : Organism) (g : GeneName) : Prop :=
  ∃ v, o.getPhenotype g = .num v ∧ 1/10 ≤ v ∧ v ≤ 2
/-- A prey whose genome carries a (numeric) resistance allele pair and whose
energy has reached 0, i.e. the death check would kill it. -/
def resistOrg : Organism := { orgEx with energy := 0 }
/-- A 1×1 environment with an empty (non-node) plains cell. -/
def envU : Environment :=
  { width := 1, height := 1, temperature := 25
    grid := fun _ _ =>
      { resourceAmount := 0, isNode := false, tempOffset := 0, moveCostMultiplier := 1 } }

/-- A live prey with very little energy left. -/
def org0 : Organism := { orgEx with energy := 1/10 }

/-- The movement draw "step east". -/
def r0 : MoveRand := { randDx := 1, randDy := 0, fleeRx := 0, fleeRy := 0 }
/-- Environments whose cells all have a non-negative movement-cost
multiplier (every biome in `BIOME_DEFINITIONS` has multiplier ≥ 1). -/
def Environment.WF (env : Environment) : Prop :=
  ∀ y x, 0 ≤ (env.grid y x).moveCostMultiplier

/-- A strictly positive metabolism-efficiency phenotype (guaranteed for
genomes with in-bounds additive alleles, see `additive_alleles_in_bounds`). -/
def metabPosO (o : Organism) : Prop :=
  0 < (o.getPhenotype .metabolism_efficiency).toNum
/-- A live predator with in-range gene values. -/
def predEx : Predator :=
  { id := 100, age := 10, energy := 90, alive := true, loc := (0, 0)
    metabolism_efficiency := 1, temperature_tolerance := 25, speed := 1
    detection_range := 7, hunting_efficiency := 1/2
    hasReproducedThisTick := false, targetPrey := none }
/-- The flat candidate sequence `Simulation._findPartner` scans: the lookup
lists of the 24 surrounding (toroidally wrapped) cells in `searchOffsets`
order, followed by the lookup list of parentA's own cell. -/
def partnerSearchSeq (lookup : ℤ × ℤ → List ℤ) (gridW gridH : ℤ)
    (parentA : Organism) : List ℤ :=
  (searchOffsets.flatMap fun d =>
    lookup ((parentA.loc.1 + d.1 + gridW) % gridW,
            (parentA.loc.2 + d.2 + gridH) % gridH)) ++
  lookup (parentA.loc.1, parentA.loc.2)
/-- Three eligible prey for the mate-search counterexample: parent `1` and
candidate `2` share cell `(5, 5)`; candidate `3` sits at `(3, 3)`, two cells
away. -/
def orgC6A : Organism := { orgEx with id := 1, age := 70, energy := 100, loc := (5, 5) }

def orgC6B : Organism := { orgEx with id := 2, age := 70, energy := 100, loc := (5, 5) }

def orgC6C : Organism := { orgEx with id := 3, age := 70, energy := 100, loc := (3, 3) }

def storeC6 : ℤ → Organism := fun i =>
  if i = 1 then orgC6A else if i = 2 then orgC6B else if i = 3 then orgC6C
  else { orgEx with id := i }

def lookupC6 : ℤ × ℤ → List ℤ := fun key =>
  if key = (5, 5) then [1, 2] else if key = (3, 3) then [3] else []
/-- Well-formed store: each record's id field is its heap key (object
identity; true of the store the simulation builds, where every organism's
`id` field is its unique identity). -/
def StoreWF (store : ℤ → Organism) : Prop := ∀ i, (store i).id = i
/-- Step 2 of `Simulation.tick` for predators (the `allCreatures` loop also
covers them). -/
def Predator.resetTickFlag (p : Predator) : Predator :=
  { p with hasReproducedThisTick := false }
/-! ### Concrete reproduction scenario (1×1 grid, two eligible prey, cap 3) -/

def orgR1 : Organism := { orgEx with id := 1, age := 70, energy := 100, loc := (0, 0) }

def orgR2 : Organism := { orgEx with id := 2, age := 70, energy := 100, loc := (0, 0) }

def storeR : ℤ → Organism := fun i =>
  if i = 1 then orgR1 else if i = 2 then orgR2 else { orgEx with id := i }

def lookupR : ℤ × ℤ → List ℤ := fun key => if key = (0, 0) then [1, 2] else []

def rR : ℤ → ReproRand := fun _ =>
  { pickA := fun _ => false, pickB := fun _ => false
    mutDraws := fun _ => ⟨false, false, 0, 0⟩
    initDraws := fun _ => ⟨false, false, 0, 0⟩ }

/-- Phase state: 2 living prey, no predators, no newborns yet. -/
def stR : ReproState :=
  { store := storeR, orgCount := 2, predCount := 0, newborns := [], nextId := 10 }

/-! # Theorems -/

theorem Genome.get_ofFun (f : GeneName → Allele × Allele) (n : GeneName) :
    (Genome.ofFun f).get n = f n := by
  cases n <;> rfl

/-! ## C1 — `consumeResourceAt` -/

/-- C1. On an in-bounds cell with a non-negative pre-call balance,
`consumeResourceAt(x, y, amount)` returns `min(amount, available)`, the cell
afterwards holds the pre-call amount minus the returned value, that balance
is never negative, and the return value never exceeds the request; on
out-of-bounds coordinates it returns `0` and leaves the environment
untouched. -/
theorem consumeResourceAt_correct (env : Environment) (x y : ℤ) (amount : ℚ) :
    ((0 ≤ x ∧ x < env.width ∧ 0 ≤ y ∧ y < env.height) →
      ((env.consumeResourceAt x y amount).1 = min amount (env.grid y x).resourceAmount ∧
       ((env.consumeResourceAt x y amount).2.grid y x).resourceAmount =
         (env.grid y x).resourceAmount - (env.consumeResourceAt x y amount).1 ∧
       0 ≤ ((env.consumeResourceAt x y amount).2.grid y x).resourceAmount ∧
       (env.consumeResourceAt x y amount).1 ≤ amount)) ∧
    (¬(0 ≤ x ∧ x < env.width ∧ 0 ≤ y ∧ y < env.height) →
      ((env.consumeResourceAt x y amount).1 = 0 ∧
       (env.consumeResourceAt x y amount).2 = env)) := by
  constructor
  · rintro ⟨hx0, hxw, hy0, hyh⟩
    have hcell : env.getCell x y = some (env.grid y x) := by
      unfold Environment.getCell
      rw [if_neg (by omega)]
    refine ⟨by simp [Environment.consumeResourceAt, hcell], ?_, ?_, ?_⟩
    · simp [Environment.consumeResourceAt, hcell]
    · simp [Environment.consumeResourceAt, hcell]
    · simp only [Environment.consumeResourceAt, hcell]
      exact min_le_left _ _
  · intro h
    have hcell : env.getCell x y = none := by
      unfold Environment.getCell
      rw [if_pos (by omega)]
    simp [Environment.consumeResourceAt, hcell]

/-- Witness for C1 at a concrete environment and cell. -/
theorem consumeResourceAt_correct_witness :
    (envEx.consumeResourceAt 1 1 5).1 ≤ 5 ∧
    0 ≤ ((envEx.consumeResourceAt 1 1 5).2.grid 1 1).resourceAmount := by
  have h := (consumeResourceAt_correct envEx 1 1 5).1 (by norm_num [envEx])
  exact ⟨h.2.2.2, h.2.2.1⟩

/-! ## C9 — dominance resolution for `temperature_tolerance` -/

/-- C9. `(H,H) → High`, `(L,L) → Low`, `(H,L)` and `(L,H) → Medium`. -/
theorem getPhenotype_dominance (o : Organism) :
    (o.genes.temperature_tolerance = (.H, .H) →
      o.getPhenotype .temperature_tolerance = .High) ∧
    (o.genes.temperature_tolerance = (.L, .L) →
      o.getPhenotype .temperature_tolerance = .Low) ∧
    (o.genes.temperature_tolerance = (.H, .L) →
      o.getPhenotype .temperature_tolerance = .Medium) ∧
    (o.genes.temperature_tolerance = (.L, .H) →
      o.getPhenotype .temperature_tolerance = .Medium) := by
  refine ⟨?_, ?_, ?_, ?_⟩ <;> intro h <;>
    simp [Organism.getPhenotype, Genome.get, h]

/-- Witness for C9 on a concrete homozygous-`H` organism. -/
theorem getPhenotype_dominance_witness :
    ({ orgEx with
        genes := { genomeEx with temperature_tolerance := (.H, .H) } } : Organism).getPhenotype
      .temperature_tolerance = .High :=
  (getPhenotype_dominance _).1 rfl

/-! ## C7 — additive allele and phenotype bounds -/

theorem clamp_mem (v lo hi : ℚ) (h : lo ≤ hi) : lo ≤ clamp v lo hi ∧ clamp v lo hi ≤ hi :=
  ⟨le_max_left _ _, max_le h (min_le_right _ _)⟩

theorem alleleInBounds_clamp (v : ℚ) : alleleInBounds (.num (clamp v (1/10) 2)) :=
  ⟨_, rfl, (clamp_mem v _ _ (by norm_num)).1, (clamp_mem v _ _ (by norm_num)).2⟩

theorem initAllelePair_metab_bounds (b : ℚ) (r : InitDraw) :
    pairInBounds (initAllelePair .metabolism_efficiency b r) := by
  simp only [initAllelePair]
  exact ⟨alleleInBounds_clamp _, alleleInBounds_clamp _⟩

theorem initAllelePair_feed_bounds (b : ℚ) (r : InitDraw) :
    pairInBounds (initAllelePair .feeding_efficiency b r) := by
  simp only [initAllelePair]
  exact ⟨alleleInBounds_clamp _, alleleInBounds_clamp _⟩

theorem mutatePair_metab_bounds (p : Allele × Allele) (r : MutDraw) :
    pairInBounds (mutatePair .metabolism_efficiency p r) := by
  simp only [mutatePair]
  exact ⟨alleleInBounds_clamp _, alleleInBounds_clamp _⟩

theorem mutatePair_feed_bounds (p : Allele × Allele) (r : MutDraw) :
    pairInBounds (mutatePair .feeding_efficiency p r) := by
  simp only [mutatePair]
  exact ⟨alleleInBounds_clamp _, alleleInBounds_clamp _⟩

theorem phenotypeInBounds_metab (o : Organism)
    (h : pairInBounds o.genes.metabolism_efficiency) :
    phenotypeInBounds o .metabolism_efficiency := by
  obtain ⟨⟨v1, h1, hv1a, hv1b⟩, ⟨v2, h2, hv2a, hv2b⟩⟩ := h
  refine ⟨(v1 + v2) / 2, ?_, by linarith, by linarith⟩
  simp [Organism.getPhenotype, Genome.get, h1, h2, Allele.toNum]

theorem phenotypeInBounds_feed (o : Organism)
    (h : pairInBounds o.genes.feeding_efficiency) :
    phenotypeInBounds o .feeding_efficiency := by
  obtain ⟨⟨v1, h1, hv1a, hv1b⟩, ⟨v2, h2, hv2a, hv2b⟩⟩ := h
  refine ⟨(v1 + v2) / 2, ?_, by linarith, by linarith⟩
  simp [Organism.getPhenotype, Genome.get, h1, h2, Allele.toNum]

/-- C7. Both alleles of `metabolism_efficiency` and `feeding_efficiency` lie
in `[0.1, 2.0]` after initial construction, after every `_mutateGenotype`
call, and on every `reproduce` offspring (inheritance followed by mutation);
consequently the expressed additive phenotype (the allele mean) always lies
in those bounds as well. -/
theorem additive_alleles_in_bounds :
    (∀ (id : ℤ) (initialGenes : GeneName → ℚ) (loc : ℤ × ℤ) (r : GeneName → InitDraw),
      pairInBounds ((Organism.init id initialGenes loc r).genes.metabolism_efficiency) ∧
      pairInBounds ((Organism.init id initialGenes loc r).genes.feeding_efficiency) ∧
      phenotypeInBounds (Organism.init id initialGenes loc r) .metabolism_efficiency ∧
      phenotypeInBounds (Organism.init id initialGenes loc r) .feeding_efficiency) ∧
    (∀ (genotype : Genome) (r : GeneName → MutDraw),
      pairInBounds ((mutateGenotype genotype r).metabolism_efficiency) ∧
      pairInBounds ((mutateGenotype genotype r).feeding_efficiency)) ∧
    (∀ (pA pB : Organism) (r : ReproRand),
      pairInBounds ((pA.reproduce pB r).genes.metabolism_efficiency) ∧
      pairInBounds ((pA.reproduce pB r).genes.feeding_efficiency) ∧
      phenotypeInBounds (pA.reproduce pB r) .metabolism_efficiency ∧
      phenotypeInBounds (pA.reproduce pB r) .feeding_efficiency) := by
  have hinitm : ∀ (id : ℤ) (ig : GeneName → ℚ) (loc : ℤ × ℤ) (r : GeneName → InitDraw),
      (Organism.init id ig loc r).genes.metabolism_efficiency =
        initAllelePair .metabolism_efficiency (ig .metabolism_efficiency)
          (r .metabolism_efficiency) := fun _ _ _ _ => rfl
  have hinitf : ∀ (id : ℤ) (ig : GeneName → ℚ) (loc : ℤ × ℤ) (r : GeneName → InitDraw),
      (Organism.init id ig loc r).genes.feeding_efficiency =
        initAllelePair .feeding_efficiency (ig .feeding_efficiency)
          (r .feeding_efficiency) := fun _ _ _ _ => rfl
  refine ⟨?_, ?_, ?_⟩
  · intro id ig loc r
    refine ⟨?_, ?_, ?_, ?_⟩
    · rw [hinitm]; exact initAllelePair_metab_bounds _ _
    · rw [hinitf]; exact initAllelePair_feed_bounds _ _
    · exact phenotypeInBounds_metab _ (by rw [hinitm]; exact initAllelePair_metab_bounds _ _)
    · exact phenotypeInBounds_feed _ (by rw [hinitf]; exact initAllelePair_feed_bounds _ _)
  · intro g r
    exact ⟨mutatePair_metab_bounds _ _, mutatePair_feed_bounds _ _⟩
  · intro pA pB r
    have hm : (pA.reproduce pB r).genes.metabolism_efficiency =
        mutatePair .metabolism_efficiency
          ((inheritGenotype pA.genes pB.genes r.pickA r.pickB).get .metabolism_efficiency)
          (r.mutDraws .metabolism_efficiency) := rfl
    have hf : (pA.reproduce pB r).genes.feeding_efficiency =
        mutatePair .feeding_efficiency
          ((inheritGenotype pA.genes pB.genes r.pickA r.pickB).get .feeding_efficiency)
          (r.mutDraws .feeding_efficiency) := rfl
    refine ⟨?_, ?_, ?_, ?_⟩
    · rw [hm]; exact mutatePair_metab_bounds _ _
    · rw [hf]; exact mutatePair_feed_bounds _ _
    · exact phenotypeInBounds_metab _ (by rw [hm]; exact mutatePair_metab_bounds _ _)
    · exact phenotypeInBounds_feed _ (by rw [hf]; exact mutatePair_feed_bounds _ _)

/-! ## C10 — `reproduce` builds a fresh offspring -/

/-- C10. For any two parents and any randomness, the offspring returned by
`reproduce` has age 0, energy exactly `INITIAL_ENERGY` (independent of either
parent's energy), is alive, has a cleared reproduction flag, carries the
placeholder id `-1`, and is located at parent `this`'s location. The
embedding of the method is a pure function of the two parent records — every
assignment in the source writes to the freshly constructed offspring (the
location and allele arrays are copied, never aliased) — so neither parent is
mutated by the call. -/
theorem reproduce_fresh_offspring (pA pB : Organism) (r : ReproRand) :
    (pA.reproduce pB r).age = 0 ∧
    (pA.reproduce pB r).energy = INITIAL_ENERGY ∧
    (pA.reproduce pB r).alive = true ∧
    (pA.reproduce pB r).hasReproducedThisTick = false ∧
    (pA.reproduce pB r).loc = pA.loc ∧
    (pA.reproduce pB r).id = -1 :=
  ⟨rfl, rfl, rfl, rfl, rfl, rfl⟩

/-! ## C5 — no resistance-based death rescue exists -/

/-- Counterexample to C5. `_checkDeath` is deterministic: this organism
carries a resistance trait and faces a lethal tick (energy ≤ 0), yet it dies
with certainty — there is no 10% survival branch — and its energy is left at
0 rather than being reset to a positive floor. -/
theorem checkDeath_ignores_resistance :
    resistOrg.energy ≤ 0 ∧
    resistOrg.genes.resistance = (.num (1/2), .num (1/2)) ∧
    (Organism.checkDeath resistOrg).alive = false ∧
    (Organism.checkDeath resistOrg).energy = 0 := by
  refine ⟨le_refl 0, rfl, ?_, ?_⟩ <;>
    simp [Organism.checkDeath, resistOrg, orgEx]

/-- C5 (amended). The death check is deterministic: whenever `energy ≤ 0` or
`age > MAX_LIFESPAN`, the agent dies unconditionally — the only field changed
is the alive flag; the resistance trait is never consulted and energy is
never reset. -/
theorem checkDeath_deterministic (o : Organism)
    (h : o.energy ≤ 0 ∨ MAX_LIFESPAN < o.age) :
    o.checkDeath = { o with alive := false } := by
  simp [Organism.checkDeath, h]

/-- Witness for the amended C5. -/
theorem checkDeath_deterministic_witness :
    Organism.checkDeath resistOrg = { resistOrg with alive := false } :=
  checkDeath_deterministic resistOrg (Or.inl (by norm_num [resistOrg, orgEx]))

/-! ## C2 — energy bounds -/

theorem getPhenotype_metab (o : Organism) :
    o.getPhenotype .metabolism_efficiency =
      .num ((o.genes.metabolism_efficiency.1.toNum +
        o.genes.metabolism_efficiency.2.toNum) / 2) := by
  simp [Organism.getPhenotype, Genome.get]

theorem getPhenotype_feed (o : Organism) :
    o.getPhenotype .feeding_efficiency =
      .num ((o.genes.feeding_efficiency.1.toNum +
        o.genes.feeding_efficiency.2.toNum) / 2) := by
  simp [Organism.getPhenotype, Genome.get]

theorem getPhenotype_reproRate (o : Organism) :
    o.getPhenotype .reproductive_rate =
      .num ((o.genes.reproductive_rate.1.toNum +
        o.genes.reproductive_rate.2.toNum) / 2) := by
  simp [Organism.getPhenotype, Genome.get]

theorem getPhenotype_temp (o : Organism) :
    o.getPhenotype .temperature_tolerance =
      (match o.genes.temperature_tolerance with
       | (.H, .H) => .High
       | (.L, .L) => .Low
       | _ => .Medium) := by
  simp [Organism.getPhenotype, Genome.get]

/-- Counterexample to C2. Starting a tick alive with energy within
`[0, MAX_ENERGY]`, this prey's energy is negative immediately after the move
step (`_move` deducts the movement cost without clamping), and still negative
at the end of its update — the `0 ≤ energy` bound does not hold at every
point during a tick. -/
theorem energy_can_go_negative :
    org0.alive = true ∧ 0 ≤ org0.energy ∧ org0.energy ≤ MAX_ENERGY ∧
    (org0.move envU [] r0).energy < 0 ∧
    (org0.update envU [] r0).1.energy < 0 := by
  have hmove : (org0.move envU [] r0).energy = 1/10 - 15/100 := by
    norm_num [Organism.move, chooseMoveDelta, moveCostAt, org0, orgEx, r0, envU,
      Environment.getCell, MOVEMENT_ENERGY_COST, distSq, clampZ]
  have hupd : (org0.update envU [] r0).1.energy < 0 := by
    norm_num [Organism.update, Organism.move, chooseMoveDelta, moveCostAt,
      Organism.metabolize, Organism.feed, Organism.checkDeath, getPhenotype_metab,
      getPhenotype_feed, getPhenotype_temp, Allele.toNum, Phen.toNum,
      tempPenaltyMultiplier, org0, orgEx, genomeEx, r0, envU, Environment.getCell,
      MOVEMENT_ENERGY_COST, BASE_ENERGY_COST_PER_TICK, TEMP_BASE, TEMP_AMPLITUDE,
      MAX_LIFESPAN, distSq, clampZ]
  refine ⟨rfl, by norm_num [org0, orgEx], by norm_num [org0, orgEx, MAX_ENERGY],
    by rw [hmove]; norm_num, hupd⟩

theorem getCell_some {env : Environment} {x y : ℤ} {c : Cell}
    (h : env.getCell x y = some c) : c = env.grid y x := by
  unfold Environment.getCell at h
  split at h
  · exact absurd h (by simp)
  · exact (Option.some.inj h).symm

theorem tempPenaltyMultiplier_pos (p : Phen) (t : ℚ) : 0 < tempPenaltyMultiplier p t := by
  unfold tempPenaltyMultiplier
  cases p <;> dsimp only <;> first
    | (split_ifs <;> norm_num)
    | norm_num

theorem moveCostAt_nonneg (env : Environment) (x y : ℤ) (base : ℚ) (hb : 0 ≤ base)
    (hWF : env.WF) : 0 ≤ moveCostAt env x y base := by
  unfold moveCostAt
  rcases hc : env.getCell x y with _ | c
  · exact hb
  · have := hWF y x
    rw [← getCell_some hc] at this
    exact mul_nonneg hb this

theorem move_genes (o : Organism) (env : Environment) (preds : List Predator)
    (r : MoveRand) : (o.move env preds r).genes = o.genes := by
  unfold Organism.move
  dsimp only
  split <;> rfl

theorem move_energy_le (o : Organism) (env : Environment) (preds : List Predator)
    (r : MoveRand) (hWF : env.WF) : (o.move env preds r).energy ≤ o.energy := by
  unfold Organism.move
  dsimp only
  split
  · exact le_refl _
  · exact sub_le_self _
      (moveCostAt_nonneg env _ _ _ (by norm_num [MOVEMENT_ENERGY_COST]) hWF)

theorem metabolize_energy_le (o : Organism) (env : Environment) (hm : metabPosO o) :
    (o.metabolize env).energy ≤ o.energy := by
  unfold Organism.metabolize
  rcases hc : env.getCell o.loc.1 o.loc.2 with _ | c
  · exact le_refl _
  · dsimp only
    have h1 : 0 < BASE_ENERGY_COST_PER_TICK /
        (o.getPhenotype .metabolism_efficiency).toNum :=
      div_pos (by norm_num [BASE_ENERGY_COST_PER_TICK]) hm
    have h2 := tempPenaltyMultiplier_pos (o.getPhenotype .temperature_tolerance)
      (env.temperature + c.tempOffset)
    have := mul_pos h1 h2
    linarith

theorem feed_energy_le_max (o : Organism) (env : Environment)
    (h : o.energy ≤ MAX_ENERGY) : (o.feed env).1.energy ≤ MAX_ENERGY := by
  unfold Organism.feed
  rcases hc : env.getCell o.loc.1 o.loc.2 with _ | c
  · exact h
  · dsimp only
    split
    · simp only [clamp]
      exact max_le (by norm_num [MAX_ENERGY]) (min_le_right _ _)
    · exact h

theorem checkDeath_energy (o : Organism) : o.checkDeath.energy = o.energy := by
  unfold Organism.checkDeath
  split <;> rfl

theorem checkDeath_alive_pos (o : Organism) (h : o.checkDeath.alive = true) :
    0 < o.energy := by
  by_contra hneg
  push_neg at hneg
  unfold Organism.checkDeath at h
  rw [if_pos (Or.inl hneg)] at h
  simp at h

theorem phen_congr {o o' : Organism} (h : o.genes = o'.genes) (g : GeneName) :
    o.getPhenotype g = o'.getPhenotype g := by
  unfold Organism.getPhenotype
  rw [h]

theorem pred_metabolize_energy_le (p : Predator) (env : Environment)
    (hm : 0 < p.metabolism_efficiency) : (p.metabolize env).energy ≤ p.energy := by
  unfold Predator.metabolize
  rcases hc : env.getCell p.loc.1 p.loc.2 with _ | c
  · exact le_refl _
  · dsimp only
    have h1 : 0 < BASE_ENERGY_COST_PER_TICK * (12/10) / p.metabolism_efficiency :=
      div_pos (by norm_num [BASE_ENERGY_COST_PER_TICK]) hm
    have h2 : (0:ℚ) ≤ |env.temperature + c.tempOffset - p.temperature_tolerance| *
        TEMP_PENALTY_FACTOR :=
      mul_nonneg (abs_nonneg _) (by norm_num [TEMP_PENALTY_FACTOR])
    have h3 : 0 < (1 + |env.temperature + c.tempOffset - p.temperature_tolerance| *
        TEMP_PENALTY_FACTOR) := by linarith
    have := mul_pos h1 h3
    linarith

theorem pred_move_energy_le (p : Predator) (env : Environment)
    (allOrganisms : List Organism) (r : MoveRand) (hWF : env.WF) :
    (p.move env allOrganisms r).energy ≤ p.energy := by
  unfold Predator.move
  rcases hc : env.getCell p.loc.1 p.loc.2 with _ | c
  · exact le_refl _
  · dsimp only
    split
    · exact le_refl _
    · exact sub_le_self _
        (moveCostAt_nonneg env _ _ _ (by norm_num [MOVEMENT_ENERGY_COST]) hWF)

theorem huntLoop_energy_le (pred : Predator) (store : ℤ → Organism) (roll : ℕ → Bool)
    (l : List ℤ) (n : ℕ) (h : pred.energy ≤ MAX_ENERGY * (12/10)) :
    (Predator.huntLoop pred store roll l n).1.energy ≤ MAX_ENERGY * (12/10) := by
  induction l generalizing n with
  | nil => exact h
  | cons cid rest ih =>
    unfold Predator.huntLoop
    dsimp only
    split
    · split
      · simp only [clamp]
        exact max_le (by norm_num [MAX_ENERGY]) (min_le_right _ _)
      · exact ih (n + 1)
    · exact ih n

theorem hunt_energy_le (pred : Predator) (cellIds : List ℤ) (store : ℤ → Organism)
    (roll : ℕ → Bool) (h : pred.energy ≤ MAX_ENERGY * (12/10)) :
    (pred.hunt cellIds store roll).1.energy ≤ MAX_ENERGY * (12/10) := by
  unfold Predator.hunt
  split
  · exact h
  · exact huntLoop_energy_le _ _ _ _ _ h

theorem pred_checkDeath_energy (p : Predator) : p.checkDeath.energy = p.energy := by
  unfold Predator.checkDeath
  split <;> rfl

theorem pred_checkDeath_alive_pos (p : Predator) (h : p.checkDeath.alive = true) :
    0 < p.energy := by
  by_contra hneg
  push_neg at hneg
  unfold Predator.checkDeath at h
  rw [if_pos (Or.inl hneg)] at h
  simp at h

/-- C2 (amended). In any environment with non-negative movement multipliers
and for any agent with a positive metabolism-efficiency value: an agent still
alive at the end of its per-tick update has strictly positive energy, and
energy never exceeds the species' maximum (`MAX_ENERGY` for prey,
`MAX_ENERGY × 1.2` for predators) provided it was within that bound at the
start of the tick. Energy may be negative transiently during a tick, but only
for an agent that the death check then removes (see
`energy_can_go_negative`). -/
theorem energy_bounds_amended :
    (∀ (o : Organism) (env : Environment) (preds : List Predator) (r : MoveRand),
      env.WF → metabPosO o →
      ((o.update env preds r).1.alive = true → 0 < (o.update env preds r).1.energy) ∧
      (o.energy ≤ MAX_ENERGY → (o.update env preds r).1.energy ≤ MAX_ENERGY)) ∧
    (∀ (p : Predator) (env : Environment) (allOrganisms : List Organism)
        (cellIds : List ℤ) (store : ℤ → Organism) (r : PredRand),
      env.WF → 0 < p.metabolism_efficiency →
      ((p.update env allOrganisms cellIds store r).1.alive = true →
        0 < (p.update env allOrganisms cellIds store r).1.energy) ∧
      (p.energy ≤ MAX_ENERGY * (12/10) →
        (p.update env allOrganisms cellIds store r).1.energy ≤ MAX_ENERGY * (12/10))) := by
  constructor
  · intro o env preds r hWF hm
    unfold Organism.update
    split
    next hdead =>
      exact ⟨fun ha => absurd ha hdead, fun h => h⟩
    next halive =>
      dsimp only
      constructor
      · intro ha
        rw [checkDeath_energy]
        exact checkDeath_alive_pos _ ha
      · intro h
        rw [checkDeath_energy]
        apply feed_energy_le_max
        have hm2 : metabPosO (Organism.move { o with age := o.age + 1 } env preds r) := by
          unfold metabPosO
          rw [phen_congr (move_genes { o with age := o.age + 1 } env preds r)]
          exact hm
        have e1 := metabolize_energy_le
          (Organism.move { o with age := o.age + 1 } env preds r) env hm2
        have e2 := move_energy_le { o with age := o.age + 1 } env preds r hWF
        have e3 : ({ o with age := o.age + 1 } : Organism).energy = o.energy := rfl
        linarith
  · intro p env allOrganisms cellIds store r hWF hm
    unfold Predator.update
    split
    next hdead =>
      exact ⟨fun ha => absurd ha hdead, fun h => h⟩
    next halive =>
      dsimp only
      constructor
      · intro ha
        rw [pred_checkDeath_energy]
        exact pred_checkDeath_alive_pos _ ha
      · intro h
        rw [pred_checkDeath_energy]
        apply hunt_energy_le
        have hm2 : 0 <
            Predator.metabolism_efficiency
              (({ p with age := p.age + 1 } : Predator).metabolize env) := by
          have hfld :
              Predator.metabolism_efficiency
                (({ p with age := p.age + 1 } : Predator).metabolize env) =
              p.metabolism_efficiency := by
            unfold Predator.metabolize
            split <;> rfl
          rw [hfld]
          exact hm
        have e1 := pred_move_energy_le (({ p with age := p.age + 1 } : Predator).metabolize env)
          env allOrganisms r.moveRand hWF
        have e2 := pred_metabolize_energy_le ({ p with age := p.age + 1 } : Predator) env hm
        have e3 : ({ p with age := p.age + 1 } : Predator).energy = p.energy := rfl
        linarith

/-- Witness for the amended C2, instantiating both the prey and the predator
half at concrete agents in a concrete environment. -/
theorem energy_bounds_amended_witness :
    (orgEx.update envEx [] r0).1.energy ≤ MAX_ENERGY ∧
    (predEx.update envEx [] [] (fun _ => orgEx) ⟨r0, fun _ => false⟩).1.energy ≤
      MAX_ENERGY * (12/10) := by
  have hWF : envEx.WF := fun y x => by norm_num [envEx, cellEx]
  have hmo : metabPosO orgEx := by
    norm_num [metabPosO, getPhenotype_metab, orgEx, genomeEx, Allele.toNum, Phen.toNum]
  have h1 := (energy_bounds_amended.1 orgEx envEx [] r0 hWF hmo).2
    (by norm_num [orgEx, MAX_ENERGY])
  have h2 := (energy_bounds_amended.2 predEx envEx [] [] (fun _ => orgEx)
    ⟨r0, fun _ => false⟩ hWF (by norm_num [predEx])).2
    (by norm_num [predEx, MAX_ENERGY])
  exact ⟨h1, h2⟩

/-! ## C8 — hunted prey are removed untouched; one kill per predator -/

theorem move_id (o : Organism) (env : Environment) (preds : List Predator)
    (r : MoveRand) : (o.move env preds r).id = o.id := by
  unfold Organism.move
  dsimp only
  split <;> rfl

theorem metabolize_id (o : Organism) (env : Environment) :
    (o.metabolize env).id = o.id := by
  unfold Organism.metabolize
  split <;> rfl

theorem feed_id (o : Organism) (env : Environment) : (o.feed env).1.id = o.id := by
  unfold Organism.feed
  split
  · rfl
  · dsimp only
    split <;> rfl

theorem checkDeath_id (o : Organism) : o.checkDeath.id = o.id := by
  unfold Organism.checkDeath
  split <;> rfl

theorem update_id (o : Organism) (env : Environment) (preds : List Predator)
    (r : MoveRand) : (o.update env preds r).1.id = o.id := by
  unfold Organism.update
  split
  · rfl
  · dsimp only
    rw [checkDeath_id, feed_id, metabolize_id, move_id]

theorem huntLoop_frame (pred : Predator) (store : ℤ → Organism) (roll : ℕ → Bool)
    (l : List ℤ) (n : ℕ) :
    (∀ k, (Predator.huntLoop pred store roll l n).2.1 = some k →
      (Predator.huntLoop pred store roll l n).2.2 k = { store k with alive := false } ∧
      ∀ j, j ≠ k → (Predator.huntLoop pred store roll l n).2.2 j = store j) ∧
    ((Predator.huntLoop pred store roll l n).2.1 = none →
      (Predator.huntLoop pred store roll l n).2.2 = store) := by
  induction l generalizing n with
  | nil =>
    refine ⟨fun k hk => ?_, fun _ => rfl⟩
    exact absurd hk (by simp [Predator.huntLoop])
  | cons cid rest ih =>
    unfold Predator.huntLoop
    dsimp only
    split
    · split
      · constructor
        · intro k hk
          obtain rfl : cid = k := Option.some.inj hk
          constructor
          · simp
          · intro j hj
            simp [if_neg hj]
        · intro hk
          exact absurd hk (by simp)
      · exact ih (n + 1)
    · exact ih n

theorem hunt_frame (pred : Predator) (cellIds : List ℤ) (store : ℤ → Organism)
    (roll : ℕ → Bool) :
    (∀ k, (pred.hunt cellIds store roll).2.1 = some k →
      (pred.hunt cellIds store roll).2.2 k = { store k with alive := false } ∧
      ∀ j, j ≠ k → (pred.hunt cellIds store roll).2.2 j = store j) ∧
    ((pred.hunt cellIds store roll).2.1 = none →
      (pred.hunt cellIds store roll).2.2 = store) := by
  unfold Predator.hunt
  split
  · refine ⟨fun k hk => ?_, fun _ => rfl⟩
    exact absurd hk (by simp)
  · exact huntLoop_frame pred store roll cellIds 0

theorem preyPhaseAux_spec (hunted : List ℤ) (predators : List Predator)
    (r : ℤ → MoveRand) (l : List Organism) (env : Environment) :
    (preyPhaseAux hunted predators r l env).removedHunted =
      l.filter (fun o => decide (o.id ∈ hunted)) ∧
    (∀ o ∈ (preyPhaseAux hunted predators r l env).survivors, o.id ∉ hunted) ∧
    (∀ pid ∈ (preyPhaseAux hunted predators r l env).parents, pid ∉ hunted) := by
  induction l generalizing env with
  | nil => simp [preyPhaseAux]
  | cons org rest ih =>
    unfold preyPhaseAux
    dsimp only
    split
    next hmem =>
      refine ⟨?_, (ih env).2.1, (ih env).2.2⟩
      dsimp only
      rw [(ih env).1, List.filter_cons_of_pos (by simpa using hmem)]
    next hmem =>
      split
      next hdead =>
        refine ⟨?_, (ih _).2.1, (ih _).2.2⟩
        rw [(ih _).1, List.filter_cons_of_neg (by simpa using hmem)]
      next halive =>
        refine ⟨?_, ?_, ?_⟩
        · dsimp only
          rw [(ih _).1, List.filter_cons_of_neg (by simpa using hmem)]
        · intro o ho
          dsimp only at ho
          rcases List.mem_cons.mp ho with rfl | ho'
          · rw [update_id]
            exact hmem
          · exact (ih _).2.1 o ho'
        · intro pid hp
          dsimp only at hp
          by_cases he : eligibleForReproduction
              (org.update env predators (r org.id)).1 = true
          · rw [if_pos he] at hp
            rcases List.mem_cons.mp hp with rfl | hp'
            · rw [update_id]
              exact hmem
            · exact (ih _).2.2 pid hp'
          · rw [if_neg he] at hp
            exact (ih _).2.2 pid hp

/-- C8. (i) A hunt mutates at most one prey record — the killed one — and
changes only its alive flag: energy, position, age, genes and the
reproduction flag stay exactly as they were, and every other prey record is
untouched; a hunt that kills nothing changes nothing; since `hunt` is called
once per predator per tick and stops at its first success, each predator
kills at most one prey per tick. (ii) In the prey phase, every prey whose id
was hunted this tick is removed with its record exactly as it was at the
start of the phase — it performs no movement, metabolism, feeding or death
check — and hunted ids appear neither among the survivors nor among the
queued reproduction candidates. -/
theorem hunted_prey_untouched :
    (∀ (pred : Predator) (cellIds : List ℤ) (store : ℤ → Organism) (roll : ℕ → Bool),
      (∀ k, (pred.hunt cellIds store roll).2.1 = some k →
        (pred.hunt cellIds store roll).2.2 k = { store k with alive := false } ∧
        ∀ j, j ≠ k → (pred.hunt cellIds store roll).2.2 j = store j) ∧
      ((pred.hunt cellIds store roll).2.1 = none →
        (pred.hunt cellIds store roll).2.2 = store)) ∧
    (∀ (organisms : List Organism) (hunted : List ℤ) (env : Environment)
        (predators : List Predator) (r : ℤ → MoveRand),
      (preyPhase organisms hunted env predators r).removedHunted =
        organisms.filter (fun o => decide (o.id ∈ hunted)) ∧
      (∀ o ∈ (preyPhase organisms hunted env predators r).survivors, o.id ∉ hunted) ∧
      (∀ pid ∈ (preyPhase organisms hunted env predators r).parents, pid ∉ hunted)) := by
  constructor
  · exact hunt_frame
  · intro organisms hunted env predators r
    have h := preyPhaseAux_spec hunted predators r organisms.reverse env
    refine ⟨?_, ?_, ?_⟩
    · show (preyPhaseAux hunted predators r organisms.reverse env).removedHunted.reverse = _
      rw [h.1, ← List.filter_reverse, List.reverse_reverse]
    · intro o ho
      have ho' : o ∈ (preyPhaseAux hunted predators r organisms.reverse env).survivors := by
        rw [← List.mem_reverse]
        exact ho
      exact h.2.1 o ho'
    · exact h.2.2

/-- Witness for C8: a concrete predator kills the co-located prey with id 0;
the store afterwards differs only in that prey's alive flag, and the prey
phase removes the hunted prey with its record intact while producing no
survivors. -/
theorem hunted_prey_untouched_witness :
    (predEx.hunt [0] (fun _ => orgEx) (fun _ => true)).2.2 0 =
      { orgEx with alive := false } ∧
    (preyPhase [orgEx] [0] envEx [] (fun _ => r0)).removedHunted = [orgEx] ∧
    (preyPhase [orgEx] [0] envEx [] (fun _ => r0)).survivors = [] := by
  have hkill : (predEx.hunt [0] (fun _ => orgEx) (fun _ => true)).2.1 = some 0 := by
    simp [Predator.hunt, Predator.huntLoop, predEx, orgEx]
  have h1 := ((hunted_prey_untouched.1 predEx [0] (fun _ => orgEx) (fun _ => true)).1
    0 hkill).1
  have h2 := (hunted_prey_untouched.2 [orgEx] [0] envEx [] (fun _ => r0)).1
  have h3 := (hunted_prey_untouched.2 [orgEx] [0] envEx [] (fun _ => r0)).2.1
  refine ⟨h1, ?_, ?_⟩
  · rw [h2]
    simp [orgEx]
  · have := h3
    simp [preyPhase, preyPhaseAux, orgEx]

/-! ## C6 — mate-search order -/

/-- C6 (amended). `_findPartner` returns the first eligible candidate of the
flat scan sequence that visits the surrounding cells (in the fixed
row-major offset order, toroidally wrapped) FIRST and parentA's own cell
LAST — the reverse of the claimed own-cell-first expanding order. -/
theorem findPartner_order (store : ℤ → Organism) (lookup : ℤ × ℤ → List ℤ)
    (gridW gridH : ℤ) (parentA : Organism) :
    findPartner store lookup gridW gridH parentA =
      (partnerSearchSeq lookup gridW gridH parentA).find?
        (eligiblePartner store parentA) := by
  unfold findPartner partnerSearchSeq
  rw [List.find?_append, List.find?_flatMap]
  dsimp only
  split
  next x hx =>
    rw [hx]
    rfl
  next hx =>
    rw [hx]
    rfl

/-- Counterexample to C6. Parent `1`'s own cell holds the eligible candidate
`2`, yet `_findPartner` returns candidate `3` from the surrounding cell
`(3, 3)` — the own cell is scanned last, not first. -/
theorem findPartner_own_cell_not_first :
    eligiblePartner storeC6 orgC6A 2 = true ∧
    orgC6A.loc = (5, 5) ∧ lookupC6 (5, 5) = [1, 2] ∧
    findPartner storeC6 lookupC6 10 10 orgC6A = some 3 ∧ (3 : ℤ) ≠ 2 := by
  have he3 : eligiblePartner storeC6 orgC6A 3 = true := by
    simp only [eligiblePartner, storeC6, orgC6A, orgC6C, orgEx]
    norm_num [REPRODUCTION_AGE, REPRODUCTION_ENERGY_THRESHOLD]
  refine ⟨?_, rfl, by norm_num [lookupC6], ?_, by norm_num⟩
  · simp only [eligiblePartner, storeC6, orgC6A, orgC6B, orgEx]
    norm_num [REPRODUCTION_AGE, REPRODUCTION_ENERGY_THRESHOLD]
  · norm_num [findPartner, searchOffsets, lookupC6,
      show orgC6A.loc.1 = 5 from rfl, show orgC6A.loc.2 = 5 from rfl,
      List.findSome?, he3, List.find?]

/-! ## C3 / C4 — the reproduction phase -/

theorem findPartner_eligible {store : ℤ → Organism} {lookup : ℤ × ℤ → List ℤ}
    {gridW gridH : ℤ} {pA : Organism} {c : ℤ}
    (h : findPartner store lookup gridW gridH pA = some c) :
    eligiblePartner store pA c = true := by
  unfold findPartner at h
  split at h
  next x hx =>
    obtain rfl : x = c := Option.some.inj h
    obtain ⟨d, _, hfd⟩ := List.exists_of_findSome?_eq_some hx
    exact List.find?_some hfd
  next hx =>
    exact List.find?_some h

theorem eligiblePartner_unpack {store : ℤ → Organism} {pA : Organism} {c : ℤ}
    (h : eligiblePartner store pA c = true) :
    (store c).id ≠ pA.id ∧ (store c).alive = true ∧
    (store c).hasReproducedThisTick = false := by
  simp only [eligiblePartner, Bool.and_eq_true, decide_eq_true_eq,
    Bool.not_eq_true'] at h
  exact ⟨h.1.1.1.1, h.1.1.1.2, h.1.1.2⟩

theorem reproEventState_store_pa {st : ReproState} {pid pbid : ℤ} (r : ℤ → ReproRand)
    (hne : pid ≠ pbid) :
    (reproEventState st pid pbid r).store pid =
      { st.store pid with
        energy := (st.store pid).energy - adjustedReproCost (st.store pid)
        hasReproducedThisTick := true } := by
  simp [reproEventState, if_neg hne]

theorem reproEventState_store_pb {st : ReproState} {pid pbid : ℤ} (r : ℤ → ReproRand)
    (hne : pid ≠ pbid) :
    (reproEventState st pid pbid r).store pbid =
      { st.store pbid with
        energy := (st.store pbid).energy - adjustedReproCost (st.store pbid)
        hasReproducedThisTick := true } := by
  simp [reproEventState, if_neg (Ne.symm hne)]

theorem reproEventState_store_other {st : ReproState} {pid pbid j : ℤ}
    (r : ℤ → ReproRand) (h1 : j ≠ pid) (h2 : j ≠ pbid) :
    (reproEventState st pid pbid r).store j = st.store j := by
  simp [reproEventState, if_neg h1, if_neg h2]

theorem reproEventState_flag_pa {st : ReproState} {pid pbid : ℤ} (r : ℤ → ReproRand) :
    ((reproEventState st pid pbid r).store pid).hasReproducedThisTick = true := by
  unfold reproEventState
  dsimp only
  split <;> simp

theorem reproEventState_flag_pb {st : ReproState} {pid pbid : ℤ} (r : ℤ → ReproRand) :
    ((reproEventState st pid pbid r).store pbid).hasReproducedThisTick = true := by
  simp [reproEventState]

theorem reproEventState_wf {st : ReproState} {pid pbid : ℤ} (r : ℤ → ReproRand)
    (hwf : StoreWF st.store) : StoreWF (reproEventState st pid pbid r).store := by
  intro i
  unfold reproEventState
  dsimp only
  split
  next hb =>
    subst hb
    split
    next hp => rw [hp]; exact hwf pid
    next => exact hwf i
  next hb =>
    split
    next hp => rw [hp]; exact hwf pid
    next => exact hwf i

theorem reproEventState_orgCount (st : ReproState) (pid pbid : ℤ) (r : ℤ → ReproRand) :
    (reproEventState st pid pbid r).orgCount = st.orgCount := rfl

theorem reproEventState_predCount (st : ReproState) (pid pbid : ℤ) (r : ℤ → ReproRand) :
    (reproEventState st pid pbid r).predCount = st.predCount := rfl

theorem reproEventState_newborns (st : ReproState) (pid pbid : ℤ) (r : ℤ → ReproRand) :
    (reproEventState st pid pbid r).newborns.length = st.newborns.length + 1 := by
  simp [reproEventState]

theorem mem_participants {x : ℤ} {evs : List ReproEvent} :
    x ∈ participants evs ↔ ∃ e ∈ evs, x = e.pa ∨ x = e.pb := by
  simp [participants, List.mem_flatMap]

theorem participants_cons (e : ReproEvent) (evs : List ReproEvent) :
    participants (e :: evs) = e.pa :: e.pb :: participants evs := rfl

/-- Combined invariant of the reproduction loop, proved by induction over the
parent list: the store stays well-formed; the population counts are
untouched; exactly one newborn is queued per event; no id takes part in two
events; non-participants' records are untouched; each event's two parents
are distinct, had a cleared flag when the phase started, and end the phase
with exactly their energy reduced by their adjusted cost and their flag set;
the population cap is preserved; and a phase starting at or above the cap
produces no events. -/
theorem reproLoop_spec (maxPop : ℕ) (gridW gridH : ℤ) (lookup : ℤ × ℤ → List ℤ)
    (r : ℤ → ReproRand) :
    ∀ (parents : List ℤ) (st : ReproState), StoreWF st.store →
    StoreWF (reproLoop maxPop gridW gridH lookup r parents st).1.store ∧
    (reproLoop maxPop gridW gridH lookup r parents st).1.orgCount = st.orgCount ∧
    (reproLoop maxPop gridW gridH lookup r parents st).1.predCount = st.predCount ∧
    (reproLoop maxPop gridW gridH lookup r parents st).1.newborns.length =
      st.newborns.length + (reproLoop maxPop gridW gridH lookup r parents st).2.length ∧
    (participants (reproLoop maxPop gridW gridH lookup r parents st).2).Nodup ∧
    (∀ i, i ∉ participants (reproLoop maxPop gridW gridH lookup r parents st).2 →
      (reproLoop maxPop gridW gridH lookup r parents st).1.store i = st.store i) ∧
    (∀ e ∈ (reproLoop maxPop gridW gridH lookup r parents st).2,
      e.pa ≠ e.pb ∧
      (st.store e.pa).hasReproducedThisTick = false ∧
      (st.store e.pb).hasReproducedThisTick = false ∧
      (reproLoop maxPop gridW gridH lookup r parents st).1.store e.pa =
        { st.store e.pa with
          energy := (st.store e.pa).energy - adjustedReproCost (st.store e.pa)
          hasReproducedThisTick := true } ∧
      (reproLoop maxPop gridW gridH lookup r parents st).1.store e.pb =
        { st.store e.pb with
          energy := (st.store e.pb).energy - adjustedReproCost (st.store e.pb)
          hasReproducedThisTick := true }) ∧
    (st.orgCount + st.predCount + st.newborns.length ≤ maxPop →
      st.orgCount + st.predCount +
        (reproLoop maxPop gridW gridH lookup r parents st).1.newborns.length ≤ maxPop) ∧
    (maxPop ≤ st.orgCount + st.predCount + st.newborns.length →
      (reproLoop maxPop gridW gridH lookup r parents st).2 = []) := by
  intro parents
  induction parents with
  | nil =>
    intro st hwf
    refine ⟨hwf, rfl, rfl, by simp [reproLoop], by simp [reproLoop, participants],
      fun i _ => rfl, ?_, fun h => h, fun _ => rfl⟩
    intro e he
    simp [reproLoop] at he
  | cons pid rest ih =>
    intro st hwf
    simp only [reproLoop]
    split
    next hskip => exact ih st hwf
    next hg =>
      have hAalive : (st.store pid).alive = true := by
        have := fun h => hg (Or.inl h)
        simpa using this
      have hAflag : (st.store pid).hasReproducedThisTick = false := by
        have := fun h => hg (Or.inr h)
        simpa using this
      split
      next hfp => exact ih st hwf
      next pbid hfp =>
        split
        next hpart =>
          have hel := findPartner_eligible hfp
          have hun := eligiblePartner_unpack hel
          have hne : pid ≠ pbid := by
            have h1 := hun.1
            rw [hwf pbid, hwf pid] at h1
            exact (Ne.symm h1)
          split
          next hcap =>
            dsimp only
            have hwf1 := @reproEventState_wf st pid pbid r hwf
            obtain ⟨ih1, ih2, ih3, ih4, ih5, ih6, ih7, ih8, ih9⟩ :=
              ih (reproEventState st pid pbid r) hwf1
            have hfa := @reproEventState_flag_pa st pid pbid r
            have hfb := @reproEventState_flag_pb st pid pbid r
            have hpidnot : pid ∉ participants
                (reproLoop maxPop gridW gridH lookup r rest
                  (reproEventState st pid pbid r)).2 := by
              intro hmem
              obtain ⟨e, he, hor⟩ := mem_participants.mp hmem
              have h7 := ih7 e he
              rcases hor with h | h
              · have hfalse := h7.2.1
                rw [← h] at hfalse
                rw [hfalse] at hfa
                exact absurd hfa (by simp)
              · have hfalse := h7.2.2.1
                rw [← h] at hfalse
                rw [hfalse] at hfa
                exact absurd hfa (by simp)
            have hpbnot : pbid ∉ participants
                (reproLoop maxPop gridW gridH lookup r rest
                  (reproEventState st pid pbid r)).2 := by
              intro hmem
              obtain ⟨e, he, hor⟩ := mem_participants.mp hmem
              have h7 := ih7 e he
              rcases hor with h | h
              · have hfalse := h7.2.1
                rw [← h] at hfalse
                rw [hfalse] at hfb
                exact absurd hfb (by simp)
              · have hfalse := h7.2.2.1
                rw [← h] at hfalse
                rw [hfalse] at hfb
                exact absurd hfb (by simp)
            refine ⟨ih1, ih2, ih3, ?_, ?_, ?_, ?_, ?_, ?_⟩
            · rw [ih4, reproEventState_newborns]
              simp only [List.length_cons]
              omega
            · rw [participants_cons]
              refine List.nodup_cons.mpr ⟨?_, List.nodup_cons.mpr ⟨hpbnot, ih5⟩⟩
              intro hmem
              rcases List.mem_cons.mp hmem with h | h
              · exact hne h
              · exact hpidnot h
            · intro i hi
              rw [participants_cons] at hi
              have hi1 : i ≠ pid := fun h => hi (h ▸ List.mem_cons_self _ _)
              have hi2 : i ≠ pbid := fun h =>
                hi (h ▸ List.mem_cons_of_mem _ (List.mem_cons_self _ _))
              have hi3 : i ∉ participants
                  (reproLoop maxPop gridW gridH lookup r rest
                    (reproEventState st pid pbid r)).2 := fun h =>
                hi (List.mem_cons_of_mem _ (List.mem_cons_of_mem _ h))
              rw [ih6 i hi3, reproEventState_store_other r hi1 hi2]
            · intro e he
              rcases List.mem_cons.mp he with rfl | he'
              · refine ⟨hne, hAflag, hpart.2, ?_, ?_⟩
                · rw [ih6 pid hpidnot, reproEventState_store_pa r hne]
                · rw [ih6 pbid hpbnot, reproEventState_store_pb r hne]
              · have h7 := ih7 e he'
                have hea1 : e.pa ≠ pid := by
                  intro h
                  rw [h] at h7
                  rw [h7.2.1] at hfa
                  exact absurd hfa (by simp)
                have hea2 : e.pa ≠ pbid := by
                  intro h
                  rw [h] at h7
                  rw [h7.2.1] at hfb
                  exact absurd hfb (by simp)
                have heb1 : e.pb ≠ pid := by
                  intro h
                  rw [h] at h7
                  rw [h7.2.2.1] at hfa
                  exact absurd hfa (by simp)
                have heb2 : e.pb ≠ pbid := by
                  intro h
                  rw [h] at h7
                  rw [h7.2.2.1] at hfb
                  exact absurd hfb (by simp)
                have hsa := @reproEventState_store_other st pid pbid e.pa r hea1 hea2
                have hsb := @reproEventState_store_other st pid pbid e.pb r heb1 heb2
                refine ⟨h7.1, ?_, ?_, ?_, ?_⟩
                · rw [← hsa]; exact h7.2.1
                · rw [← hsb]; exact h7.2.2.1
                · rw [h7.2.2.2.1, hsa]
                · rw [h7.2.2.2.2, hsb]
            · intro htot
              have hstep : (reproEventState st pid pbid r).orgCount +
                  (reproEventState st pid pbid r).predCount +
                  (reproEventState st pid pbid r).newborns.length ≤ maxPop := by
                rw [reproEventState_orgCount, reproEventState_predCount,
                  reproEventState_newborns]
                omega
              have h8 := ih8 hstep
              rw [reproEventState_orgCount, reproEventState_predCount] at h8
              exact h8
            · intro hge
              omega
          next hcap =>
            refine ⟨hwf, rfl, rfl, by simp, by simp [participants],
              fun i _ => rfl, ?_, fun h => by simpa using h, fun _ => rfl⟩
            intro e he
            simp at he
        next hpart => exact ih st hwf

theorem storeR_wf : StoreWF storeR := by
  intro i
  unfold storeR
  split_ifs with h1 h2
  · rw [h1]; rfl
  · rw [h2]; rfl
  · rfl

theorem eligR1 : eligiblePartner storeR orgR1 1 = false := by
  simp [eligiblePartner, storeR, orgR1, orgEx]

theorem eligR2 : eligiblePartner storeR orgR1 2 = true := by
  simp only [eligiblePartner, storeR, orgR1, orgR2, orgEx]
  norm_num [REPRODUCTION_AGE, REPRODUCTION_ENERGY_THRESHOLD]

theorem findPartnerR : findPartner stR.store lookupR 1 1 (stR.store 1) = some 2 := by
  show findPartner storeR lookupR 1 1 orgR1 = some 2
  norm_num [findPartner, searchOffsets, lookupR,
    show orgR1.loc.1 = 0 from rfl, show orgR1.loc.2 = 0 from rfl,
    List.findSome?, List.find?, eligR1, eligR2]

/-- One pass of the concrete reproduction loop: parent 1 mates with partner 2
and exactly one event fires. -/
theorem reproLoopR_eval :
    reproLoop 3 1 1 lookupR rR [1] stR =
      (reproEventState stR 1 2 rR, [⟨1, 2⟩]) := by
  have f1 : (stR.store 1).alive = true := rfl
  have f2 : (stR.store 1).hasReproducedThisTick = false := rfl
  have f3 : (stR.store 2).alive = true := rfl
  have f4 : (stR.store 2).hasReproducedThisTick = false := rfl
  have f5 : stR.orgCount = 2 := rfl
  have f6 : stR.predCount = 0 := rfl
  have f7 : stR.newborns = ([] : List Organism) := rfl
  simp only [reproLoop, findPartnerR, f1, f2, f3, f4, f5, f6, f7, List.length_nil]
  norm_num

/-- C3 (amended). Provided the combined population (prey + predators +
queued newborns) does not exceed the cap when the reproduction phase starts,
it still does not exceed the cap after the phase; an offspring is only
created while the combined total is strictly below the cap, so the phase may
land exactly on the cap, and a phase starting at (or above) the cap produces
no offspring at all. (After the phase the prey array is `organisms ++
newborns`, so the post-phase total is `orgCount + predCount +
newborns.length`.) -/
theorem population_cap_preserved (maxPop : ℕ) (gridW gridH : ℤ)
    (lookup : ℤ × ℤ → List ℤ) (r : ℤ → ReproRand) (parents : List ℤ)
    (st : ReproState) (hwf : StoreWF st.store)
    (hpre : st.orgCount + st.predCount + st.newborns.length ≤ maxPop) :
    st.orgCount + st.predCount +
      (reproLoop maxPop gridW gridH lookup r parents st).1.newborns.length ≤ maxPop ∧
    (maxPop ≤ st.orgCount + st.predCount + st.newborns.length →
      (reproLoop maxPop gridW gridH lookup r parents st).2 = [] ∧
      (reproLoop maxPop gridW gridH lookup r parents st).1.newborns.length =
        st.newborns.length) := by
  obtain ⟨_, _, _, h4, _, _, _, h8, h9⟩ :=
    reproLoop_spec maxPop gridW gridH lookup r parents st hwf
  refine ⟨h8 hpre, fun hge => ⟨h9 hge, ?_⟩⟩
  rw [h4, h9 hge]
  rfl

/-- Witness for the amended C3 on the concrete scenario (total 2, cap 3). -/
theorem population_cap_preserved_witness :
    stR.orgCount + stR.predCount +
      (reproLoop 3 1 1 lookupR rR [1] stR).1.newborns.length ≤ 3 ∧
    stR.orgCount + stR.predCount +
      (reproLoop 3 1 1 lookupR rR [1] stR).1.newborns.length = 3 := by
  have h := (population_cap_preserved 3 1 1 lookupR rR [1] stR storeR_wf
    (by norm_num [stR])).1
  refine ⟨h, ?_⟩
  rw [reproLoopR_eval]
  have := reproEventState_newborns stR 1 2 rR
  simp only [reproEventState_newborns]
  rfl

/-- Counterexample to C3's second conjunct. With the combined population one
below the cap (2 of 3), adding one more offspring would reach the cap — yet
the eligible pair does reproduce: the code only stops once the total is no
longer strictly below the cap, so the population lands exactly on the cap. -/
theorem offspring_created_at_cap_minus_one :
    stR.orgCount + stR.predCount + stR.newborns.length + 1 = 3 ∧
    (reproLoop 3 1 1 lookupR rR [1] stR).2.length = 1 ∧
    (reproLoop 3 1 1 lookupR rR [1] stR).1.newborns.length = 1 := by
  refine ⟨rfl, ?_, ?_⟩
  · rw [reproLoopR_eval]
    rfl
  · rw [reproLoopR_eval]
    simp only [reproEventState_newborns]
    rfl

/-- C4. The per-tick reproduction discipline: (i) every agent's
`hasReproducedThisTick` flag is cleared by the reset at the start of the
tick; (ii) no id takes part in more than one reproduction event in the phase
(the participant list has no duplicates), so the flag transitions to `true`
at most once per agent per tick; (iii) each event queues exactly one
offspring (newborn count = event count), involves two distinct parents whose
flags were still cleared, and leaves each parent with its flag set and its
energy decreased by exactly its phenotype-adjusted reproduction cost;
(iv) agents in no event are untouched by the phase. -/
theorem reproduction_once_per_tick (maxPop : ℕ) (gridW gridH : ℤ)
    (lookup : ℤ × ℤ → List ℤ) (r : ℤ → ReproRand) (parents : List ℤ)
    (st : ReproState) (hwf : StoreWF st.store) :
    (∀ o : Organism, (resetTickFlag o).hasReproducedThisTick = false) ∧
    (∀ p : Predator, (p.resetTickFlag).hasReproducedThisTick = false) ∧
    (participants (reproLoop maxPop gridW gridH lookup r parents st).2).Nodup ∧
    (reproLoop maxPop gridW gridH lookup r parents st).1.newborns.length =
      st.newborns.length +
        (reproLoop maxPop gridW gridH lookup r parents st).2.length ∧
    (∀ e ∈ (reproLoop maxPop gridW gridH lookup r parents st).2,
      e.pa ≠ e.pb ∧
      (st.store e.pa).hasReproducedThisTick = false ∧
      (st.store e.pb).hasReproducedThisTick = false ∧
      (reproLoop maxPop gridW gridH lookup r parents st).1.store e.pa =
        { st.store e.pa with
          energy := (st.store e.pa).energy - adjustedReproCost (st.store e.pa)
          hasReproducedThisTick := true } ∧
      (reproLoop maxPop gridW gridH lookup r parents st).1.store e.pb =
        { st.store e.pb with
          energy := (st.store e.pb).energy - adjustedReproCost (st.store e.pb)
          hasReproducedThisTick := true }) ∧
    (∀ i, i ∉ participants (reproLoop maxPop gridW gridH lookup r parents st).2 →
      (reproLoop maxPop gridW gridH lookup r parents st).1.store i = st.store i) := by
  obtain ⟨_, _, _, h4, h5, h6, h7, _, _⟩ :=
    reproLoop_spec maxPop gridW gridH lookup r parents st hwf
  exact ⟨fun _ => rfl, fun _ => rfl, h5, h4, h7, h6⟩

/-- Witness for C4 on the concrete scenario: the single event pairs distinct
parents 1 and 2, and the participant list `[1, 2]` has no duplicates. -/
theorem reproduction_once_per_tick_witness :
    (participants (reproLoop 3 1 1 lookupR rR [1] stR).2).Nodup ∧
    participants (reproLoop 3 1 1 lookupR rR [1] stR).2 = [1, 2] := by
  have h := (reproduction_once_per_tick 3 1 1 lookupR rR [1] stR storeR_wf).2.2.1
  refine ⟨h, ?_⟩
  rw [reproLoopR_eval]
  rfl

end EvoSim
